import Mathlib

/-!
Verification development for the FungiGPT training/export pipeline
(`src/model/config.py`, `src/model/preprocess.py`, `src/model/train.py`,
`src/model/export_tflite.py`).

Pure Python functions are embedded as Lean functions.  Calls into the
image/tensor libraries (PIL, TensorFlow, Keras) are embedded by their
documented deterministic semantics:

* `tf.keras.preprocessing.image.load_img(path, target_size=...)` decodes
  the file with PIL, converts to RGB (first frame for animated formats)
  and, when the decoded size differs from the target, resizes with PIL's
  default `interpolation='nearest'` (pixel-centre sampling, truncation).
* `tf.io.decode_image(bytes, channels=3)` decodes BMP/GIF/JPEG/PNG only
  (WEBP is not supported and raises); GIF decodes to a 4-D
  frames×H×W×3 tensor, the static formats to a 3-D H×W×3 tensor.
* `tf.image.resize(t, size)` uses the default bilinear kernel with
  half-pixel centres: source position `(i + 0.5) * in/out - 0.5`,
  `lower = max(floor(p), 0)`, `upper = min(ceil(p), in - 1)`,
  `lerp = p - floor(p)`, output `top + (bottom - top) * lerp` per axis.
* `tf.keras.applications.mobilenet_v2.preprocess_input(x)` maps
  `x / 127.5 - 1`.

Machine floating point is modelled by exact rationals; the numerical
discrepancies proved below are orders of magnitude above float rounding.
-/

namespace FungiSpec

/-! ## config.py -/

/-- `IMG_SIZE = (224, 224)` (config.py). -/
def IMG_SIZE : ℕ × ℕ := (224, 224)

/-- `FINE_TUNE_LR = 0.0001` (config.py). -/
def FINE_TUNE_LR : ℚ := 1 / 10000

/-- `CLASS_NAMES` (config.py): the fixed closed label set. -/
def CLASS_NAMES : List String :=
  ["candidiasis", "tinea_corporis", "tinea_pedis", "tinea_versicolor"]

/-! ## Tensor model

A dense numeric array: an explicit shape together with a total indexing
function (values outside the shape are irrelevant junk). -/

structure Tensor where
  shape : List ℕ
  px : List ℕ → ℚ

/-- `np.expand_dims(a, axis=0)` / `tf.expand_dims(t, axis=0)`. -/
def expand_dims0 (t : Tensor) : Tensor :=
  ⟨1 :: t.shape, fun idx => t.px idx.tail⟩

/-- `tf.keras.applications.mobilenet_v2.preprocess_input`: elementwise
`x / 127.5 - 1` (mode `tf` scaling to `[-1, 1]`). -/
def preprocess_input (t : Tensor) : Tensor :=
  ⟨t.shape, fun idx => t.px idx / (255 / 2) - 1⟩

/-! ## Resizing kernels -/

/-- Half-pixel-centre source coordinate used by `tf.image.resize`
(bilinear, v2 default): `(n + 0.5) * inSz / outSz - 0.5`. -/
def srcPos (n outSz inSz : ℕ) : ℚ :=
  ((n : ℚ) + 1 / 2) * inSz / outSz - 1 / 2

/-- `lower = max(floor(p), 0)` of the TF bilinear kernel. -/
def lowIdx (p : ℚ) : ℕ := Int.toNat ⌊p⌋

/-- `upper = min(ceil(p), inSz - 1)` of the TF bilinear kernel. -/
def highIdx (p : ℚ) (inSz : ℕ) : ℕ := min (Int.toNat ⌈p⌉) (inSz - 1)

/-- `lerp = p - floor(p)` of the TF bilinear kernel. -/
def lerpAmt (p : ℚ) : ℚ := Int.fract p

/-- One linear interpolation step: `a + (b - a) * t`. -/
def lerp (a b t : ℚ) : ℚ := a + (b - a) * t

/-- The bilinear sample of `tf.image.resize` at output coordinate
`(y, x)`, reading one channel plane of the source through `read`: the
`top` row interpolation, the `bottom` row interpolation, then the
vertical interpolation between them. -/
def bilinearAt (read : ℕ → ℕ → ℚ) (inH inW outH outW y x : ℕ) : ℚ :=
  lerp
    (lerp (read (lowIdx (srcPos y outH inH)) (lowIdx (srcPos x outW inW)))
      (read (lowIdx (srcPos y outH inH)) (highIdx (srcPos x outW inW) inW))
      (lerpAmt (srcPos x outW inW)))
    (lerp (read (highIdx (srcPos y outH inH) inH) (lowIdx (srcPos x outW inW)))
      (read (highIdx (srcPos y outH inH) inH) (highIdx (srcPos x outW inW) inW))
      (lerpAmt (srcPos x outW inW)))
    (lerpAmt (srcPos y outH inH))

/-- `tf.image.resize(t, (H, W))`: bilinear resize of the two spatial
axes of a 3-D `[h, w, c]` or 4-D `[b, h, w, c]` tensor.  (TF rejects
other ranks; the pipelines below only ever pass rank 3 or 4.) -/
def resizeBilinear (t : Tensor) (H W : ℕ) : Tensor :=
  match t.shape with
  | [h, w, c] =>
      ⟨[H, W, c], fun idx =>
        bilinearAt (fun iy ix => t.px [iy, ix, idx.getD 2 0]) h w H W
          (idx.getD 0 0) (idx.getD 1 0)⟩
  | [b, h, w, c] =>
      ⟨[b, H, W, c], fun idx =>
        bilinearAt (fun iy ix => t.px [idx.getD 0 0, iy, ix, idx.getD 3 0]) h w H W
          (idx.getD 1 0) (idx.getD 2 0)⟩
  | _ => t

/-- PIL nearest-neighbour source index (pixel-centre sampling with
truncation): `floor((n + 0.5) * inSz / outSz)`. -/
def nearestIdx (n outSz inSz : ℕ) : ℕ :=
  Int.toNat ⌊((n : ℚ) + 1 / 2) * inSz / outSz⌋

/-! ## Decoded images -/

/-- A decoded source image: `frames` animation frames (1 for static
images) of `h × w` RGB pixels; `px frame y x channel` is the 8-bit
channel value (as a rational in `[0, 255]` for any real image). -/
structure SrcImage where
  frames : ℕ
  h : ℕ
  w : ℕ
  px : ℕ → ℕ → ℕ → ℕ → ℚ

/-- The image file formats whose extensions the repository accepts. -/
inductive ImgFormat
  | jpeg | png | bmp | gif | webp
deriving DecidableEq

/-- A raw image byte buffer, abstracted as its container format plus the
image it decodes to. -/
structure EncodedImage where
  format : ImgFormat
  img : SrcImage

/-! ## preprocess.py -/

/-- `tf.keras.preprocessing.image.load_img(path, target_size)`: PIL
decodes the file (any of the accepted formats; first frame, RGB) and
resizes with the default nearest-neighbour kernel when the decoded size
differs from the target. -/
def load_img (s : SrcImage) (target : ℕ × ℕ) : Tensor :=
  if s.h = target.1 ∧ s.w = target.2 then
    ⟨[s.h, s.w, 3], fun idx => s.px 0 (idx.getD 0 0) (idx.getD 1 0) (idx.getD 2 0)⟩
  else
    ⟨[target.1, target.2, 3], fun idx =>
      s.px 0 (nearestIdx (idx.getD 0 0) target.1 s.h)
        (nearestIdx (idx.getD 1 0) target.2 s.w) (idx.getD 2 0)⟩

/-- `tf.keras.preprocessing.image.img_to_array`: the PIL image as a
float array of the same shape and values. -/
def img_to_array (t : Tensor) : Tensor := t

/-- `preprocess_image` (preprocess.py): load, scale to `[-1, 1]`, add
the batch dimension. -/
def preprocess_image (s : SrcImage) : Tensor :=
  expand_dims0 (preprocess_input (img_to_array (load_img s IMG_SIZE)))

/-- `tf.io.decode_image(image_bytes, channels=3)`: decodes BMP, GIF,
JPEG and PNG; WEBP is unsupported and raises; GIF yields a 4-D
`[frames, h, w, 3]` tensor, static formats a 3-D `[h, w, 3]` tensor. -/
def decode_image (e : EncodedImage) : Except String Tensor :=
  match e.format with
  | .webp => Except.error "Unknown image file format"
  | .gif =>
      Except.ok ⟨[e.img.frames, e.img.h, e.img.w, 3], fun idx =>
        e.img.px (idx.getD 0 0) (idx.getD 1 0) (idx.getD 2 0) (idx.getD 3 0)⟩
  | _ =>
      Except.ok ⟨[e.img.h, e.img.w, 3], fun idx =>
        e.img.px 0 (idx.getD 0 0) (idx.getD 1 0) (idx.getD 2 0)⟩

/-- `preprocess_image_bytes` (preprocess.py): decode, bilinear-resize,
scale to `[-1, 1]`, add the batch dimension. -/
def preprocess_image_bytes (e : EncodedImage) : Except String Tensor := do
  let t ← decode_image e
  let r := resizeBilinear t IMG_SIZE.1 IMG_SIZE.2
  return expand_dims0 (preprocess_input r)

/-- Shape of a fallible tensor result (`none` when decoding raised). -/
def exceptShape (r : Except String Tensor) : Option (List ℕ) :=
  r.toOption.map Tensor.shape

/-- One element of a fallible tensor result. -/
def exceptPx (r : Except String Tensor) (idx : List ℕ) : Option ℚ :=
  r.toOption.map (fun t => t.px idx)

/-- A file on disk, abstracted as its path plus whether PIL
`Image.open(...).verify()` succeeds on its bytes.  The verification
outcome depends only on the bytes, never on the path or extension. -/
structure FSFile where
  path : String
  pilVerifies : Bool
deriving DecidableEq

/-- `is_valid_image` (preprocess.py): try PIL open + verify. -/
def is_valid_image (f : FSFile) : Bool := f.pilVerifies

/-- `remove_corrupted_images` (preprocess.py).  The input list is every
regular file anywhere under the dataset root, in `os.walk` order; the
result is (paths removed, files left on disk). -/
def remove_corrupted_images (files : List FSFile) : List String × List FSFile :=
  files.foldl
    (fun acc f =>
      if is_valid_image f then (acc.1, acc.2 ++ [f])
      else (acc.1 ++ [f.path], acc.2))
    ([], [])

/-! ## train.py: validate_dataset -/

/-- An entry of the dataset root directory, as seen by
`data_path.iterdir()`: a name, whether it is a directory, and (for
directories) the names of the regular files it contains. -/
structure DirEntry where
  name : String
  isDir : Bool
  files : List String
deriving DecidableEq

/-- `MIN_CLASSES = 2` (train.py, validate_dataset). -/
def MIN_CLASSES : ℕ := 2

/-- `MIN_IMAGES_PER_CLASS = 3` (train.py, validate_dataset). -/
def MIN_IMAGES_PER_CLASS : ℕ := 3

/-- `MIN_TOTAL_IMAGES = 20` (train.py, validate_dataset). -/
def MIN_TOTAL_IMAGES : ℕ := 20

/-- `valid_extensions` of validate_dataset (train.py). -/
def validExtensions : List String :=
  [".jpg", ".jpeg", ".png", ".webp", ".bmp", ".gif"]

/-- Python `pathlib.PurePath.suffix`: the extension from the last dot,
empty when the dot is absent, leading, or final. -/
def fileSuffix (name : String) : String :=
  let cs := name.data
  match ((List.range cs.length).filter (fun i => cs.getD i ' ' = '.')).getLast? with
  | some i => if 0 < i ∧ i < cs.length - 1 then ⟨cs.drop i⟩ else ""
  | none => ""

/-- Python `str.lower` (the accepted extensions are ASCII). -/
def lowerStr (s : String) : String := ⟨s.data.map Char.toLower⟩

/-- The per-class-directory count of validate_dataset: regular files
whose lower-cased suffix is an accepted image extension. -/
def countValidImages (files : List String) : ℕ :=
  (files.filter (fun f => validExtensions.contains (lowerStr (fileSuffix f)))).length

/-- Python `name.startswith('.')`: the first character is a dot. -/
def startsWithDot (s : String) : Bool :=
  match s.data with
  | [] => false
  | c :: _ => c = '.'

/-- The `class_counts` dict of validate_dataset: non-hidden
subdirectories of the root, keeping only those with a positive valid
image count, in iteration order. -/
def class_counts (entries : List DirEntry) : List (String × ℕ) :=
  ((entries.filter (fun d => d.isDir && !(startsWithDot d.name))).map
    (fun d => (d.name, countValidImages d.files))).filter (fun p => 0 < p.2)

/-- The six error lines printed when no class has any image. -/
def noImagesErrors (dataDir : String) : List String :=
  [ "❌ No training images found in " ++ dataDir,
    "   Please upload images organized in class folders:",
    "   data/training_images/",
    "   ├── candidiasis/",
    "   ├── tinea_corporis/",
    "   ├── tinea_pedis/",
    "   └── tinea_versicolor/" ]

/-- The three error lines printed when fewer than `MIN_CLASSES` classes
are populated. -/
def fewClassesErrors (cc : List (String × ℕ)) : List String :=
  [ "❌ Insufficient disease classes: " ++ toString cc.length ++
      " (minimum: " ++ toString MIN_CLASSES ++ ")",
    "   Current classes: " ++ String.intercalate ", " (cc.map Prod.fst),
    "   Please add images to at least 2 different disease folders" ]

/-- The `if num_classes == 0 ... elif num_classes < MIN_CLASSES` block
of validate_dataset. -/
def classCountErrors (dataDir : String) (cc : List (String × ℕ)) : List String :=
  if cc.length = 0 then noImagesErrors dataDir
  else if cc.length < MIN_CLASSES then fewClassesErrors cc
  else []

/-- The per-class deficit line of validate_dataset. -/
def deficitLine (p : String × ℕ) : String :=
  "   - " ++ p.1 ++ ": " ++ toString p.2 ++ " images (need " ++
    toString (MIN_IMAGES_PER_CLASS - p.2) ++ " more)"

/-- The `insufficient_classes` block of validate_dataset: flagged only
when some class is below the per-class minimum AND at least
`MIN_CLASSES` classes exist. -/
def perClassErrors (cc : List (String × ℕ)) : List String :=
  if cc.filter (fun p => p.2 < MIN_IMAGES_PER_CLASS) ≠ [] ∧ MIN_CLASSES ≤ cc.length then
    ("❌ Some classes have too few images (minimum: " ++
        toString MIN_IMAGES_PER_CLASS ++ " per class):")
      :: (cc.filter (fun p => p.2 < MIN_IMAGES_PER_CLASS)).map deficitLine
  else []

/-- The total-image check of validate_dataset: flagged only when the
total is below `MIN_TOTAL_IMAGES` AND at least `MIN_CLASSES` classes
exist. -/
def totalErrors (cc : List (String × ℕ)) : List String :=
  if (cc.map Prod.snd).sum < MIN_TOTAL_IMAGES ∧ MIN_CLASSES ≤ cc.length then
    [ "❌ Insufficient total images: " ++ toString (cc.map Prod.snd).sum ++
        " (minimum: " ++ toString MIN_TOTAL_IMAGES ++ ")",
      "   Please add " ++ toString (MIN_TOTAL_IMAGES - (cc.map Prod.snd).sum) ++
        " more images" ]
  else []

/-- The aggregated `errors` list of validate_dataset, in source order. -/
def validationErrors (dataDir : String) (cc : List (String × ℕ)) : List String :=
  classCountErrors dataDir cc ++ perClassErrors cc ++ totalErrors cc

/-- The `stats` dict of validate_dataset. -/
structure ValidationStats where
  num_classes : ℕ
  total_images : ℕ
  class_counts : List (String × ℕ)
deriving DecidableEq

/-- The `(is_valid, error_message, stats)` triple returned by
validate_dataset; `stats = none` models the empty dict of the
missing-directory early return. -/
structure ValidationResult where
  valid : Bool
  error_msg : Option String
  stats : Option ValidationStats
deriving DecidableEq

/-- `validate_dataset` (train.py).  `root = none` models a dataset
directory that does not exist; otherwise `root` is the directory
listing. -/
def validate_dataset (dataDir : String) (root : Option (List DirEntry)) :
    ValidationResult :=
  match root with
  | none => ⟨false, some ("❌ Dataset directory not found: " ++ dataDir), none⟩
  | some entries =>
      if (validationErrors dataDir (class_counts entries)).isEmpty then
        ⟨true, none,
          some ⟨(class_counts entries).length,
            ((class_counts entries).map Prod.snd).sum, class_counts entries⟩⟩
      else
        ⟨false,
          some (String.intercalate "\n" (validationErrors dataDir (class_counts entries))),
          some ⟨(class_counts entries).length,
            ((class_counts entries).map Prod.snd).sum, class_counts entries⟩⟩

/-! ## train.py: train -/

/-- The side-effecting stages of `train` that follow a successful
validation, in source order. -/
inductive TrainStep
  | cleanCorruptedImages
  | createDataGenerators
  | buildModel
  | compileModel
  | trainHead
  | fineTune
  | evaluateModel
  | plotHistory
  | saveModel
deriving DecidableEq

/-- All stages of `train` after validation, in source order. -/
def trainSteps : List TrainStep :=
  [.cleanCorruptedImages, .createDataGenerators, .buildModel, .compileModel,
   .trainHead, .fineTune, .evaluateModel, .plotHistory, .saveModel]

/-- `train` (train.py), abstracted to its control flow: validate first;
on failure raise `ValueError(error_msg)` (no later stage runs); on
success run every stage. -/
def train (dataDir : String) (root : Option (List DirEntry)) :
    Except String (List TrainStep) :=
  if (validate_dataset dataDir root).valid then Except.ok trainSteps
  else Except.error ((validate_dataset dataDir root).error_msg.getD "")

/-- One Keras layer of the MobileNetV2 backbone: its name and its
`trainable` flag. -/
structure Layer where
  name : String
  trainable : Bool
deriving DecidableEq

/-- The phase-2 setup of `train` on the backbone's layer list:
`base_model.trainable = True` (marks every layer trainable), then
`for layer in base_model.layers[:100]: layer.trainable = False`. -/
def phase2BaseLayers (layers : List Layer) : List Layer :=
  ((layers.map fun l => { l with trainable := true }).take 100).map
      (fun l => { l with trainable := false }) ++
    (layers.map fun l => { l with trainable := true }).drop 100

/-- An optimizer/compile configuration. -/
structure CompileCfg where
  learning_rate : ℚ
  loss : String
deriving DecidableEq

/-- The phase-2 `model.compile(optimizer=Adam(learning_rate=FINE_TUNE_LR),
loss='categorical_crossentropy', ...)` call of `train`. -/
def phase2Compile : CompileCfg := ⟨FINE_TUNE_LR, "categorical_crossentropy"⟩

/-! ## export_tflite.py -/

/-- The side-effecting operations of `export_all`, in order. -/
inductive ExportStep
  | convert (outputPath : String) (quantize : Bool)
  | writeLabels (path : String) (lines : List String)
  | verifyModel (modelPath : String)
deriving DecidableEq

/-- `os.path.join` for the two-component paths used by the exporter. -/
def pathJoin (a b : String) : String := a ++ "/" ++ b

/-- The lines written by `create_labels_file` (export_tflite.py): one
line per entry of the config constant `CLASS_NAMES`, in that order. -/
def create_labels_file_lines : List String := CLASS_NAMES

/-- `export_all` (export_tflite.py), abstracted to its operation
sequence: convert float16, convert int8-quantized, write the labels
file, then verify — the float16 artifact only. -/
def export_all (output_dir : String) : List ExportStep :=
  [ .convert (pathJoin output_dir "fungal_classifier.tflite") false,
    .convert (pathJoin output_dir "fungal_classifier_quant.tflite") true,
    .writeLabels (pathJoin output_dir "labels.txt") create_labels_file_lines,
    .verifyModel (pathJoin output_dir "fungal_classifier.tflite") ]

/-- Is an export step the verification step? -/
def ExportStep.isVerify : ExportStep → Bool
  | .verifyModel _ => true
  | _ => false

/-- What `verify_tflite_model` prints about the random-input inference:
the interpreter's output shape, the sum of the output values (printed
next to the advisory text `(should be ~1.0)`), and whether the final
success banner is printed. -/
structure VerifyReport where
  printedOutputShape : List ℕ
  printedProbSum : ℚ
  passedBanner : Bool
deriving DecidableEq

/-- `verify_tflite_model` (export_tflite.py), abstracted to its
observable behaviour on the random-input inference: it prints the
output shape and the probability sum, and unconditionally prints
"✓ TFLite model verification passed!" — the function body contains no
assertion, so no output value can make it fail. -/
def verify_tflite_model (outputShape : List ℕ) (outputVec : List ℚ) : VerifyReport :=
  ⟨outputShape, outputVec.sum, true⟩

/-- Python string comparison (as used by `sorted`): lexicographic on
code points. -/
def charListLeb : List Char → List Char → Bool
  | [], _ => true
  | _ :: _, [] => false
  | a :: as, b :: bs =>
      if a.toNat < b.toNat then true
      else if b.toNat < a.toNat then false
      else charListLeb as bs

/-- Python `a <= b` on strings. -/
def strLe (a b : String) : Prop := charListLeb a.data b.data = true

instance : DecidableRel strLe := fun a b => by
  unfold strLe
  infer_instance

/-- `flow_from_directory` class-index order (Keras): the class
subdirectory names, sorted with Python string comparison.  This is the
index order of the trained head's output layer. -/
def trainClassOrder (classDirs : List String) : List String :=
  classDirs.insertionSort strLe

/-- The class count of the trained model: `len(train_gen.class_indices)`
in `train`. -/
def modelNumClasses (classDirs : List String) : ℕ :=
  (trainClassOrder classDirs).length

/-! ## Concrete inputs used by witnesses and counterexamples -/

/-- A constant 224 × 224 image (all channel values 100). -/
def img224 : SrcImage := ⟨1, 224, 224, fun _ _ _ _ => 100⟩

/-- `img224` wrapped as a JPEG byte buffer. -/
def enc224 : EncodedImage := ⟨.jpeg, img224⟩

/-- A 1 × 2 image whose left pixel is black (0) and right pixel is
white (255). -/
def stripe : SrcImage := ⟨1, 1, 2, fun _ _ i _ => if i = 0 then 0 else 255⟩

/-- `stripe` wrapped as a PNG byte buffer. -/
def stripeEnc : EncodedImage := ⟨.png, stripe⟩

/-- A two-frame 10 × 10 GIF byte buffer. -/
def gifEnc : EncodedImage := ⟨.gif, ⟨2, 10, 10, fun _ _ _ _ => 0⟩⟩

/-- A 10 × 10 WEBP byte buffer. -/
def webpEnc : EncodedImage := ⟨.webp, ⟨1, 10, 10, fun _ _ _ _ => 0⟩⟩

/-- A dataset with two populated classes of 2 and 5 images. -/
def dirs25 : List DirEntry :=
  [⟨"alpha", true, ["a1.jpg", "a2.jpg"]⟩,
   ⟨"beta", true, ["b1.jpg", "b2.jpg", "b3.jpg", "b4.jpg", "b5.jpg"]⟩]

/-- A dataset with a single populated class of 30 images. -/
def dirs1 : List DirEntry :=
  [⟨"gamma", true,
    ["g1.jpg", "g2.jpg", "g3.jpg", "g4.jpg", "g5.jpg", "g6.jpg", "g7.jpg", "g8.jpg", "g9.jpg", "g10.jpg", "g11.jpg", "g12.jpg", "g13.jpg", "g14.jpg", "g15.jpg", "g16.jpg", "g17.jpg", "g18.jpg", "g19.jpg", "g20.jpg", "g21.jpg", "g22.jpg", "g23.jpg", "g24.jpg", "g25.jpg", "g26.jpg", "g27.jpg", "g28.jpg", "g29.jpg", "g30.jpg"]⟩]

/-- A dataset with two populated classes of 10 and 12 images. -/
def dirsOk : List DirEntry :=
  [⟨"alpha", true, ["a0.jpg", "a1.jpg", "a2.jpg", "a3.jpg", "a4.jpg", "a5.jpg", "a6.jpg", "a7.jpg", "a8.jpg", "a9.jpg"]⟩,
   ⟨"beta", true, ["b0.png", "b1.png", "b2.png", "b3.png", "b4.png", "b5.png", "b6.png", "b7.png", "b8.png", "b9.png", "b10.png", "b11.png"]⟩]

/-- A 150-layer backbone, initially fully trainable. -/
def layers150 : List Layer :=
  List.replicate 150 ⟨"conv_block", true⟩

/-! ## Shared lemmas -/

/-- Python string comparison is total. -/
theorem charListLeb_total : ∀ as bs : List Char,
    charListLeb as bs = true ∨ charListLeb bs as = true
  | [], _ => Or.inl rfl
  | _ :: _, [] => Or.inr rfl
  | a :: as, b :: bs => by
      rcases Nat.lt_trichotomy a.toNat b.toNat with h | h | h
      · exact Or.inl (by simp [charListLeb, h])
      · rcases charListLeb_total as bs with ht | ht
        · exact Or.inl (by simp [charListLeb, h, ht])
        · exact Or.inr (by simp [charListLeb, h.symm, ht])
      · exact Or.inr (by simp [charListLeb, h])

/-- Python string comparison is transitive. -/
theorem charListLeb_trans : ∀ as bs cs : List Char,
    charListLeb as bs = true → charListLeb bs cs = true → charListLeb as cs = true
  | [], _, _, _, _ => rfl
  | _ :: _, [], _, h1, _ => by simp [charListLeb] at h1
  | _ :: _, _ :: _, [], _, h2 => by simp [charListLeb] at h2
  | a :: as, b :: bs, c :: cs, h1, h2 => by
      simp only [charListLeb] at h1 h2 ⊢
      by_cases hab : a.toNat < b.toNat
      · by_cases hbc : b.toNat < c.toNat
        · rw [if_pos (show a.toNat < c.toNat by omega)]
        · by_cases hcb : c.toNat < b.toNat
          · rw [if_neg (by omega), if_pos hcb] at h2
            exact absurd h2 (by simp)
          · rw [if_pos (show a.toNat < c.toNat by omega)]
      · by_cases hba : b.toNat < a.toNat
        · rw [if_neg hab, if_pos hba] at h1
          exact absurd h1 (by simp)
        · by_cases hbc : b.toNat < c.toNat
          · rw [if_pos (show a.toNat < c.toNat by omega)]
          · by_cases hcb : c.toNat < b.toNat
            · rw [if_neg (by omega), if_pos hcb] at h2
              exact absurd h2 (by simp)
            · rw [if_neg hab, if_neg hba] at h1
              rw [if_neg hbc, if_neg hcb] at h2
              rw [if_neg (show ¬a.toNat < c.toNat by omega),
                if_neg (show ¬c.toNat < a.toNat by omega)]
              exact charListLeb_trans as bs cs h1 h2

/-- Python string comparison is antisymmetric. -/
theorem charListLeb_antisymm : ∀ as bs : List Char,
    charListLeb as bs = true → charListLeb bs as = true → as = bs
  | [], [], _, _ => rfl
  | [], _ :: _, _, h2 => by simp [charListLeb] at h2
  | _ :: _, [], h1, _ => by simp [charListLeb] at h1
  | a :: as, b :: bs, h1, h2 => by
      simp only [charListLeb] at h1 h2
      by_cases hab : a.toNat < b.toNat
      · rw [if_neg (by omega), if_pos hab] at h2
        exact absurd h2 (by simp)
      · by_cases hba : b.toNat < a.toNat
        · rw [if_neg hab, if_pos hba] at h1
          exact absurd h1 (by simp)
        · rw [if_neg hab, if_neg hba] at h1
          rw [if_neg hba, if_neg hab] at h2
          have hv : a.toNat = b.toNat := by omega
          have hc : a = b := Char.ext (UInt32.toNat.inj hv)
          rw [hc, charListLeb_antisymm as bs h1 h2]

instance : IsTotal String strLe :=
  ⟨fun a b => charListLeb_total a.data b.data⟩

instance : IsTrans String strLe :=
  ⟨fun a b c => charListLeb_trans a.data b.data c.data⟩

instance : IsAntisymm String strLe :=
  ⟨fun a b h1 h2 => by
    cases a with
    | mk da =>
      cases b with
      | mk db => rw [charListLeb_antisymm da db h1 h2]⟩

/-- A linear interpolation with weight in `[0, 1]` stays between the
bounds of its endpoints. -/
theorem lerp_mem {lo hi a b t : ℚ} (ha1 : lo ≤ a) (ha2 : a ≤ hi) (hb1 : lo ≤ b)
    (hb2 : b ≤ hi) (ht0 : 0 ≤ t) (ht1 : t ≤ 1) :
    lo ≤ lerp a b t ∧ lerp a b t ≤ hi := by
  unfold lerp
  constructor <;> nlinarith

/-- The TF bilinear interpolation weight lies in `[0, 1]`. -/
theorem lerpAmt_mem (p : ℚ) : 0 ≤ lerpAmt p ∧ lerpAmt p ≤ 1 :=
  ⟨Int.fract_nonneg p, (Int.fract_lt_one p).le⟩

/-- `lerp_mem` packaged for the `[0, 255]` pixel range. -/
theorem lerp_mem255 {a b t : ℚ} (ha : 0 ≤ a ∧ a ≤ 255) (hb : 0 ≤ b ∧ b ≤ 255)
    (ht0 : 0 ≤ t) (ht1 : t ≤ 1) : 0 ≤ lerp a b t ∧ lerp a b t ≤ 255 :=
  lerp_mem ha.1 ha.2 hb.1 hb.2 ht0 ht1

/-- A bilinear sample of data in `[0, 255]` stays in `[0, 255]`. -/
theorem bilinearAt_mem (read : ℕ → ℕ → ℚ) (inH inW outH outW y x : ℕ)
    (h : ∀ i j, 0 ≤ read i j ∧ read i j ≤ 255) :
    0 ≤ bilinearAt read inH inW outH outW y x ∧
      bilinearAt read inH inW outH outW y x ≤ 255 := by
  unfold bilinearAt
  exact lerp_mem255
    (lerp_mem255 (h _ _) (h _ _) (lerpAmt_mem _).1 (lerpAmt_mem _).2)
    (lerp_mem255 (h _ _) (h _ _) (lerpAmt_mem _).1 (lerpAmt_mem _).2)
    (lerpAmt_mem _).1 (lerpAmt_mem _).2

/-- The MobileNetV2 scaling maps `[0, 255]` into `[-1, 1]`. -/
theorem scale_mem {v : ℚ} (h0 : 0 ≤ v) (h255 : v ≤ 255) :
    -1 ≤ v / (255 / 2) - 1 ∧ v / (255 / 2) - 1 ≤ 1 := by
  constructor
  · have : 0 ≤ v / (255 / 2) := by positivity
    linarith
  · have : v / (255 / 2) ≤ 2 := by
      rw [div_le_iff₀ (by norm_num : (0 : ℚ) < 255 / 2)]
      linarith
    linarith

/-- With equal source and target extent 224, the TF half-pixel source
position is the output coordinate itself. -/
theorem srcPos_id (n : ℕ) : srcPos n 224 224 = (n : ℚ) := by
  unfold srcPos
  field_simp
  ring

/-- Interpolating with weight 0 returns the first endpoint. -/
theorem lerp_zero (a b : ℚ) : lerp a b 0 = a := by
  unfold lerp
  ring

theorem lowIdx_natCast (n : ℕ) : lowIdx (n : ℚ) = n := by
  unfold lowIdx
  rw [Int.floor_natCast]
  exact Int.toNat_natCast n

theorem lerpAmt_natCast (n : ℕ) : lerpAmt (n : ℚ) = 0 := by
  unfold lerpAmt
  exact Int.fract_natCast n

/-- At identical source and target size 224, the TF bilinear kernel is
the identity sampler. -/
theorem bilinearAt_id (read : ℕ → ℕ → ℚ) (y x : ℕ) :
    bilinearAt read 224 224 224 224 y x = read y x := by
  unfold bilinearAt
  rw [srcPos_id, srcPos_id, lerpAmt_natCast, lerpAmt_natCast, lerp_zero, lerp_zero,
    lowIdx_natCast, lowIdx_natCast]

/-- Unrolling the removal loop of `remove_corrupted_images` from any
accumulator. -/
theorem remove_corrupted_aux (files : List FSFile) (acc : List String × List FSFile) :
    files.foldl
        (fun acc f =>
          if is_valid_image f then (acc.1, acc.2 ++ [f])
          else (acc.1 ++ [f.path], acc.2)) acc =
      (acc.1 ++ (files.filter (fun f => !is_valid_image f)).map FSFile.path,
        acc.2 ++ files.filter (fun f => is_valid_image f)) := by
  induction files generalizing acc with
  | nil => simp
  | cons f fs ih =>
      by_cases h : is_valid_image f = true <;>
        simp [h, ih, List.filter_cons, List.append_assoc]

/-- The deficit line for a class with 2 images, evaluated. -/
theorem deficitLine_eval (cls : String) :
    deficitLine (cls, 2) =
      "   - " ++ cls ++ ": " ++ "2" ++ " images (need " ++ "1" ++ " more)" := by
  unfold deficitLine
  norm_num [MIN_IMAGES_PER_CLASS]
  rfl

/-! ## Claim theorems -/

/-- C10: `remove_corrupted_images` deletes exactly the files that fail
PIL image verification — its list of removed paths is the walk-order
list of failing files, the surviving files are exactly the verifying
ones, and the keep/delete decision reads only the PIL verification
outcome, never the file's path or extension. -/
theorem c10_remove_corrupted (files : List FSFile) :
    (remove_corrupted_images files).1 =
      (files.filter (fun f => !is_valid_image f)).map FSFile.path
    ∧ (remove_corrupted_images files).2 = files.filter (fun f => is_valid_image f)
    ∧ ∀ p b, is_valid_image ⟨p, b⟩ = b := by
  unfold remove_corrupted_images
  rw [remove_corrupted_aux]
  exact ⟨by simp, by simp, fun p b => rfl⟩

/-- C9: after the phase-2 fine-tuning setup, every backbone layer of
index below 100 has `trainable = false`, every layer of index 100 or
above has `trainable = true`, and the model is recompiled with learning
rate 0.0001. -/
theorem c9_phase2_freeze (ls : List Layer) (i : ℕ) (hi : i < ls.length) :
    ((i < 100 → ((phase2BaseLayers ls).getD i ⟨"", false⟩).trainable = false)
      ∧ (100 ≤ i → ((phase2BaseLayers ls).getD i ⟨"", false⟩).trainable = true))
    ∧ phase2Compile.learning_rate = 1 / 10000 := by
  have hlen : (ls.map fun l => { l with trainable := true }).length = ls.length :=
    List.length_map _ _
  refine ⟨⟨?_, ?_⟩, rfl⟩
  · intro h100
    unfold phase2BaseLayers
    rw [List.getD_eq_getElem?_getD, List.getElem?_append_left
      (by rw [List.length_map, List.length_take]; omega)]
    rw [List.getElem?_map, List.getElem?_take_of_lt h100, List.getElem?_map,
      List.getElem?_eq_getElem hi]
    rfl
  · intro h100
    unfold phase2BaseLayers
    rw [List.getD_eq_getElem?_getD, List.getElem?_append_right
      (by rw [List.length_map, List.length_take]; omega)]
    rw [List.length_map, List.length_take]
    have hmin : min 100 (ls.map fun l => { l with trainable := true }).length = 100 := by
      rw [hlen]; omega
    rw [hmin, List.getElem?_drop]
    have : 100 + (i - 100) = i := by omega
    rw [this, List.getElem?_map, List.getElem?_eq_getElem hi]
    rfl

/-- C9 witness: on a concrete 150-layer backbone, layer 5 is frozen and
layer 120 is trainable after the phase-2 setup. -/
theorem c9_phase2_freeze_witness :
    ((5 : ℕ) < layers150.length ∧ (120 : ℕ) < layers150.length)
    ∧ ((phase2BaseLayers layers150).getD 5 ⟨"", false⟩).trainable = false
    ∧ ((phase2BaseLayers layers150).getD 120 ⟨"", false⟩).trainable = true :=
  ⟨⟨by simp [layers150], by simp [layers150]⟩,
    (c9_phase2_freeze layers150 5 (by simp [layers150])).1.1 (by decide),
    (c9_phase2_freeze layers150 120 (by simp [layers150])).1.2 (by decide)⟩

/-- C8: when validation fails, `train` raises an error carrying the
validator's aggregated message, and never returns a step list — no
cleaning, generator construction, model building or fitting happens. -/
theorem c8_train_aborts (dataDir : String) (root : Option (List DirEntry)) (m : String)
    (hv : (validate_dataset dataDir root).valid = false)
    (hm : (validate_dataset dataDir root).error_msg = some m) :
    train dataDir root = Except.error m
    ∧ ∀ steps : List TrainStep, train dataDir root ≠ Except.ok steps := by
  unfold train
  rw [hv, hm]
  exact ⟨rfl, fun steps h => Except.noConfusion h⟩

/-- C8 witness: a missing dataset directory fails validation and makes
`train` raise the validator's message. -/
theorem c8_train_aborts_witness :
    ((validate_dataset "data" none).valid = false
      ∧ (validate_dataset "data" none).error_msg =
          some "❌ Dataset directory not found: data")
    ∧ train "data" none = Except.error "❌ Dataset directory not found: data" :=
  ⟨⟨rfl, rfl⟩, (c8_train_aborts "data" none _ rfl rfl).1⟩

/-- C3 (amended): the exporter's verification step loads only the
float16 artifact — the int8-quantized artifact is never verified — and
`verify_tflite_model` merely prints the output shape and the
probability sum: it reports success unconditionally, with no assertion
that could make an artifact fail verification. -/
theorem c3_verify_only_float16 (d : String) (shape : List ℕ) (vec : List ℚ) :
    (export_all d).filter ExportStep.isVerify =
      [ExportStep.verifyModel (pathJoin d "fungal_classifier.tflite")]
    ∧ (verify_tflite_model shape vec).passedBanner = true
    ∧ (verify_tflite_model shape vec).printedProbSum = vec.sum := by
  refine ⟨?_, rfl, rfl⟩
  simp [export_all, ExportStep.isVerify]

/-- C3 counterexample: an output vector of the wrong shape whose
entries sum to 5 — failing both claimed assertions — still passes
verification, and the quantized artifact is not verified at all. -/
theorem c3_counterexample :
    (verify_tflite_model [1, 2] [2, 3]).passedBanner = true
    ∧ ((2 : ℚ) + 3 ≠ 1)
    ∧ ExportStep.verifyModel "models/fungal_classifier_quant.tflite" ∉
        export_all "models" := by
  refine ⟨rfl, by norm_num, by decide⟩

/-- C2 (amended): when the trained model's class directories are
exactly the configured `CLASS_NAMES` (the intended deployment), the
labels file's line order equals the sorted class-index order of the
generator and its line count equals the model's class count — because
`CLASS_NAMES` is itself alphabetically sorted.  (In general the
exporter derives the labels from the config constant, not from the
trained model; see the counterexample.) -/
theorem c2_labels_match_when_canonical (classDirs : List String)
    (h : classDirs.Perm CLASS_NAMES) :
    create_labels_file_lines = trainClassOrder classDirs
    ∧ create_labels_file_lines.length = modelNumClasses classDirs := by
  have hs : (trainClassOrder classDirs).Perm CLASS_NAMES :=
    (List.perm_insertionSort _ _).trans h
  have h1 : trainClassOrder classDirs = CLASS_NAMES :=
    List.eq_of_perm_of_sorted hs (List.sorted_insertionSort _ _) (by decide)
  exact ⟨h1.symm, by rw [modelNumClasses, h1]; rfl⟩

/-- C2 witness: the canonical four class directories, discovered in a
different order, still give a labels file matching the model head. -/
theorem c2_labels_match_when_canonical_witness :
    (["tinea_versicolor", "candidiasis", "tinea_pedis", "tinea_corporis"].Perm
        CLASS_NAMES)
    ∧ create_labels_file_lines =
        trainClassOrder ["tinea_versicolor", "candidiasis", "tinea_pedis", "tinea_corporis"] :=
  ⟨by decide,
    (c2_labels_match_when_canonical
      ["tinea_versicolor", "candidiasis", "tinea_pedis", "tinea_corporis"] (by decide)).1⟩

/-- C2 counterexample: a model trained on two class directories has two
output units, but the labels file written by `create_labels_file` still
has four lines — the exporter reads the config constant, not the
trained model's class assignment. -/
theorem c2_counterexample :
    create_labels_file_lines.length ≠ modelNumClasses ["tinea_pedis", "candidiasis"] := by
  decide

/-- C7: a dataset whose populated classes number at least 2, each with
at least 3 valid images and at least 20 valid images in total,
validates with `valid = true`, a null message, and stats whose class
count, total and per-class counts are the dataset's computed
contents. -/
theorem c7_validate_ok (dataDir : String) (entries : List DirEntry)
    (h2 : MIN_CLASSES ≤ (class_counts entries).length)
    (h3 : ∀ p ∈ class_counts entries, MIN_IMAGES_PER_CLASS ≤ p.2)
    (h20 : MIN_TOTAL_IMAGES ≤ ((class_counts entries).map Prod.snd).sum) :
    validate_dataset dataDir (some entries) =
      ⟨true, none,
        some ⟨(class_counts entries).length,
          ((class_counts entries).map Prod.snd).sum, class_counts entries⟩⟩ := by
  have hne0 : ¬(class_counts entries).length = 0 := by
    unfold MIN_CLASSES at h2
    omega
  have e1 : classCountErrors dataDir (class_counts entries) = [] := by
    unfold classCountErrors
    rw [if_neg hne0, if_neg (Nat.not_lt.mpr h2)]
  have hfil : (class_counts entries).filter (fun p => p.2 < MIN_IMAGES_PER_CLASS) = [] := by
    rw [List.filter_eq_nil_iff]
    intro p hp
    simp only [decide_eq_true_eq]
    exact Nat.not_lt.mpr (h3 p hp)
  have e2 : perClassErrors (class_counts entries) = [] := by
    unfold perClassErrors
    rw [if_neg (fun hcon => hcon.1 hfil)]
  have e3 : totalErrors (class_counts entries) = [] := by
    unfold totalErrors
    rw [if_neg (fun hcon => Nat.not_lt.mpr h20 hcon.1)]
  have he : validationErrors dataDir (class_counts entries) = [] := by
    unfold validationErrors
    rw [e1, e2, e3]
    rfl
  simp only [validate_dataset]
  rw [he]
  rfl

/-- C7 witness: a concrete dataset with classes of 10 and 12 images
validates with matching stats. -/
theorem c7_validate_ok_witness :
    (MIN_CLASSES ≤ (class_counts dirsOk).length
      ∧ (∀ p ∈ class_counts dirsOk, MIN_IMAGES_PER_CLASS ≤ p.2)
      ∧ MIN_TOTAL_IMAGES ≤ ((class_counts dirsOk).map Prod.snd).sum)
    ∧ validate_dataset "data/training_images" (some dirsOk) =
        ⟨true, none,
          some ⟨(class_counts dirsOk).length,
            ((class_counts dirsOk).map Prod.snd).sum, class_counts dirsOk⟩⟩ :=
  ⟨⟨by decide, by decide, by decide⟩,
    c7_validate_ok "data/training_images" dirsOk (by decide) (by decide) (by decide)⟩

/-- C6: a dataset whose populated classes number exactly one fails
validation with a message naming that one class, whatever its image
count — the per-class-minimum and total-minimum checks are skipped
below two classes. -/
theorem c6_one_class (dataDir name : String) (entries : List DirEntry) (n : ℕ)
    (h : class_counts entries = [(name, n)]) :
    validate_dataset dataDir (some entries) =
      ⟨false,
        some (String.intercalate "\n"
          [ "❌ Insufficient disease classes: 1 (minimum: 2)",
            "   Current classes: " ++ name,
            "   Please add images to at least 2 different disease folders" ]),
        some ⟨1, n, [(name, n)]⟩⟩ := by
  have hf : fewClassesErrors [(name, n)] =
      [ "❌ Insufficient disease classes: 1 (minimum: 2)",
        "   Current classes: " ++ name,
        "   Please add images to at least 2 different disease folders" ] := by
    unfold fewClassesErrors
    simp only [MIN_CLASSES, List.length_cons, List.length_nil, List.map_cons, List.map_nil]
    norm_num
    exact ⟨rfl, rfl⟩
  have e1 : classCountErrors dataDir [(name, n)] = fewClassesErrors [(name, n)] := by
    unfold classCountErrors
    rw [if_neg (by simp), if_pos (by norm_num [MIN_CLASSES])]
  have e2 : perClassErrors [(name, n)] = [] := by
    unfold perClassErrors
    rw [if_neg (fun hcon => absurd hcon.2 (by norm_num [MIN_CLASSES]))]
  have e3 : totalErrors [(name, n)] = [] := by
    unfold totalErrors
    rw [if_neg (fun hcon => absurd hcon.2 (by norm_num [MIN_CLASSES]))]
  have he : validationErrors dataDir (class_counts entries) =
      [ "❌ Insufficient disease classes: 1 (minimum: 2)",
        "   Current classes: " ++ name,
        "   Please add images to at least 2 different disease folders" ] := by
    unfold validationErrors
    rw [h, e1, e2, e3, hf, List.append_nil, List.append_nil]
  simp only [validate_dataset]
  rw [he, h]
  rfl

/-- C6 witness: a single populated class of 30 images — far above every
count minimum — still fails validation, naming that class. -/
theorem c6_one_class_witness :
    class_counts dirs1 = [("gamma", 30)]
    ∧ (validate_dataset "data" (some dirs1)).valid = false :=
  ⟨by decide, by rw [c6_one_class "data" "gamma" dirs1 30 (by decide)]⟩

/-- C5: a dataset of exactly two populated classes with 2 and 5 images
fails validation with a message that simultaneously flags the first
class's per-class deficit (need 1 more) and the total-image shortfall
(need 13 more) — the failing checks are aggregated, not
short-circuited. -/
theorem c5_two_small_classes (dataDir a b : String) (fa fb : List String)
    (_hab : a ≠ b)
    (hda : startsWithDot a = false) (hdb : startsWithDot b = false)
    (hca : countValidImages fa = 2) (hcb : countValidImages fb = 5) :
    class_counts [⟨a, true, fa⟩, ⟨b, true, fb⟩] = [(a, 2), (b, 5)]
    ∧ validationErrors dataDir [(a, 2), (b, 5)] =
        [ "❌ Some classes have too few images (minimum: 3 per class):",
          "   - " ++ a ++ ": " ++ "2" ++ " images (need " ++ "1" ++ " more)",
          "❌ Insufficient total images: 7 (minimum: 20)",
          "   Please add 13 more images" ]
    ∧ validate_dataset dataDir (some [⟨a, true, fa⟩, ⟨b, true, fb⟩]) =
        ⟨false,
          some (String.intercalate "\n" (validationErrors dataDir [(a, 2), (b, 5)])),
          some ⟨2, 7, [(a, 2), (b, 5)]⟩⟩ := by
  have hcc : class_counts [⟨a, true, fa⟩, ⟨b, true, fb⟩] = [(a, 2), (b, 5)] := by
    simp [class_counts, hda, hdb, hca, hcb]
  have e1 : classCountErrors dataDir [(a, 2), (b, 5)] = [] := by
    unfold classCountErrors
    rw [if_neg (by simp), if_neg (by norm_num [MIN_CLASSES])]
  have e2 : perClassErrors [(a, 2), (b, 5)] =
      [ "❌ Some classes have too few images (minimum: 3 per class):",
        "   - " ++ a ++ ": " ++ "2" ++ " images (need " ++ "1" ++ " more)" ] := by
    unfold perClassErrors
    rw [if_pos ⟨by simp [MIN_IMAGES_PER_CLASS], by norm_num [MIN_CLASSES]⟩]
    simp only [MIN_IMAGES_PER_CLASS, List.filter_cons, List.filter_nil,
      List.map_cons, List.map_nil]
    norm_num
    exact ⟨rfl, deficitLine_eval a⟩
  have e3 : totalErrors [(a, 2), (b, 5)] =
      [ "❌ Insufficient total images: 7 (minimum: 20)",
        "   Please add 13 more images" ] := by
    unfold totalErrors
    rw [if_pos ⟨by norm_num [MIN_TOTAL_IMAGES], by norm_num [MIN_CLASSES]⟩]
    simp only [MIN_TOTAL_IMAGES, List.map_cons, List.map_nil, List.sum_cons, List.sum_nil]
    norm_num
    exact ⟨rfl, rfl⟩
  have hv : validationErrors dataDir [(a, 2), (b, 5)] =
      [ "❌ Some classes have too few images (minimum: 3 per class):",
        "   - " ++ a ++ ": " ++ "2" ++ " images (need " ++ "1" ++ " more)",
        "❌ Insufficient total images: 7 (minimum: 20)",
        "   Please add 13 more images" ] := by
    unfold validationErrors
    rw [e1, e2, e3]
    rfl
  refine ⟨hcc, hv, ?_⟩
  simp only [validate_dataset]
  rw [hcc]
  have hne : (validationErrors dataDir [(a, 2), (b, 5)]).isEmpty = false := by
    rw [hv]
    rfl
  rw [hne]
  rfl

/-- The path pipeline always produces the `(1, 224, 224, 3)` shape. -/
theorem preprocess_image_shape (s : SrcImage) :
    (preprocess_image s).shape = [1, 224, 224, 3] := by
  show 1 :: (load_img s IMG_SIZE).shape = [1, 224, 224, 3]
  unfold load_img
  by_cases hsz : s.h = IMG_SIZE.1 ∧ s.w = IMG_SIZE.2
  · rw [if_pos hsz]
    show 1 :: [s.h, s.w, 3] = [1, 224, 224, 3]
    rw [hsz.1, hsz.2]
    rfl
  · rw [if_neg hsz]
    rfl

/-- Every element the path pipeline produces from 8-bit channel data
lies in `[-1, 1]`. -/
theorem preprocess_image_px_mem (s : SrcImage) (y x k : ℕ)
    (hpx : ∀ f j i c, 0 ≤ s.px f j i c ∧ s.px f j i c ≤ 255) :
    -1 ≤ (preprocess_image s).px [0, y, x, k]
      ∧ (preprocess_image s).px [0, y, x, k] ≤ 1 := by
  show -1 ≤ (load_img s IMG_SIZE).px [y, x, k] / (255 / 2) - 1
    ∧ (load_img s IMG_SIZE).px [y, x, k] / (255 / 2) - 1 ≤ 1
  unfold load_img
  by_cases hsz : s.h = IMG_SIZE.1 ∧ s.w = IMG_SIZE.2
  · rw [if_pos hsz]
    exact scale_mem (hpx 0 _ _ _).1 (hpx 0 _ _ _).2
  · rw [if_neg hsz]
    exact scale_mem (hpx 0 _ _ _).1 (hpx 0 _ _ _).2

/-- For the statically-decodable formats, the bytes pipeline returns
the `(1, 224, 224, 3)` shape. -/
theorem bytes_static_shape (img : SrcImage) (fmt : ImgFormat)
    (hfmt : fmt = ImgFormat.jpeg ∨ fmt = ImgFormat.png ∨ fmt = ImgFormat.bmp) :
    exceptShape (preprocess_image_bytes ⟨fmt, img⟩) = some [1, 224, 224, 3] := by
  rcases hfmt with rfl | rfl | rfl <;> rfl

/-- For the statically-decodable formats, an element of the bytes
pipeline's output is the scaled bilinear sample of the decoded image. -/
theorem bytes_static_px (img : SrcImage) (fmt : ImgFormat)
    (hfmt : fmt = ImgFormat.jpeg ∨ fmt = ImgFormat.png ∨ fmt = ImgFormat.bmp)
    (y x k : ℕ) :
    exceptPx (preprocess_image_bytes ⟨fmt, img⟩) [0, y, x, k] =
      some (bilinearAt (fun iy ix => img.px 0 iy ix k) img.h img.w 224 224 y x
        / (255 / 2) - 1) := by
  rcases hfmt with rfl | rfl | rfl <;> rfl

/-- C4 (amended): the path-input operation always returns a tensor of
shape (1, 224, 224, 3) whose elements lie in [-1, 1]; the bytes-input
operation does the same for its decodable static formats (jpg/jpeg,
png, bmp).  Webp bytes are not decodable by the bytes path, and gif
bytes produce a 5-D (1, frames, 224, 224, 3) tensor — see the
counterexample. -/
theorem c4_shape_range (s : SrcImage) (e : EncodedImage) (y x k : ℕ)
    (hpx : ∀ f j i c, 0 ≤ s.px f j i c ∧ s.px f j i c ≤ 255)
    (hfmt : e.format = ImgFormat.jpeg ∨ e.format = ImgFormat.png ∨
      e.format = ImgFormat.bmp)
    (heq : e.img = s) :
    (preprocess_image s).shape = [1, 224, 224, 3]
    ∧ (-1 ≤ (preprocess_image s).px [0, y, x, k]
        ∧ (preprocess_image s).px [0, y, x, k] ≤ 1)
    ∧ exceptShape (preprocess_image_bytes e) = some [1, 224, 224, 3]
    ∧ (∀ q, exceptPx (preprocess_image_bytes e) [0, y, x, k] = some q →
        -1 ≤ q ∧ q ≤ 1) := by
  obtain ⟨fmt, img⟩ := e
  cases heq
  refine ⟨preprocess_image_shape img, preprocess_image_px_mem img y x k hpx,
    bytes_static_shape img fmt hfmt, ?_⟩
  intro q hq
  rw [bytes_static_px img fmt hfmt y x k] at hq
  injection hq with hq
  cases hq
  have hb := bilinearAt_mem (fun iy ix => img.px 0 iy ix k) img.h img.w 224 224 y x
    (fun i j => hpx 0 i j k)
  exact scale_mem hb.1 hb.2

/-- C4 witness: the constant 224 × 224 image as a path input and as
JPEG bytes, with both shapes evaluated. -/
theorem c4_shape_range_witness :
    ((∀ f j i c, 0 ≤ img224.px f j i c ∧ img224.px f j i c ≤ 255)
      ∧ (enc224.format = ImgFormat.jpeg ∨ enc224.format = ImgFormat.png ∨
          enc224.format = ImgFormat.bmp)
      ∧ enc224.img = img224)
    ∧ (preprocess_image img224).shape = [1, 224, 224, 3]
    ∧ exceptShape (preprocess_image_bytes enc224) = some [1, 224, 224, 3] :=
  ⟨⟨fun _ _ _ _ => ⟨by norm_num [img224], by norm_num [img224]⟩, Or.inl rfl, rfl⟩,
    (c4_shape_range img224 enc224 0 0 0
      (fun _ _ _ _ => ⟨by norm_num [img224], by norm_num [img224]⟩)
      (Or.inl rfl) rfl).1,
    (c4_shape_range img224 enc224 0 0 0
      (fun _ _ _ _ => ⟨by norm_num [img224], by norm_num [img224]⟩)
      (Or.inl rfl) rfl).2.2.1⟩

/-- C4 counterexample: a two-frame GIF byte buffer decodes and yields a
5-D tensor of shape (1, 2, 224, 224, 3) — not (1, 224, 224, 3) — and a
WEBP byte buffer is not decodable by `tf.io.decode_image` at all. -/
theorem c4_counterexample :
    exceptShape (preprocess_image_bytes gifEnc) = some [1, 2, 224, 224, 3]
    ∧ some [1, 2, 224, 224, 3] ≠ (some [1, 224, 224, 3] : Option (List ℕ))
    ∧ exceptShape (preprocess_image_bytes webpEnc) = none :=
  ⟨rfl, by decide, rfl⟩

/-- C1 (amended): when the decoded source image is already 224 × 224
(so that neither input path resizes), the path-input and bytes-input
operations agree exactly: same shape and identical element values.  For
other sizes the two paths use different resizing kernels — PIL
nearest-neighbour for the path input, TF bilinear for the bytes input —
and their outputs can differ by far more than floating-point tolerance;
see the counterexample. -/
theorem c1_same_image_224 (s : SrcImage) (e : EncodedImage)
    (hh : s.h = 224) (hw : s.w = 224)
    (hfmt : e.format = ImgFormat.jpeg ∨ e.format = ImgFormat.png ∨
      e.format = ImgFormat.bmp)
    (heq : e.img = s) (y x k : ℕ) :
    exceptShape (preprocess_image_bytes e) = some (preprocess_image s).shape
    ∧ exceptPx (preprocess_image_bytes e) [0, y, x, k]
        = some ((preprocess_image s).px [0, y, x, k]) := by
  obtain ⟨fmt, img⟩ := e
  cases heq
  constructor
  · rw [bytes_static_shape img fmt hfmt, preprocess_image_shape img]
  · rw [bytes_static_px img fmt hfmt y x k]
    have hpath : (preprocess_image img).px [0, y, x, k]
        = img.px 0 y x k / (255 / 2) - 1 := by
      show (load_img img IMG_SIZE).px [y, x, k] / (255 / 2) - 1 = _
      unfold load_img
      rw [if_pos ⟨hh, hw⟩]
      rfl
    rw [hpath, hh, hw, bilinearAt_id]

/-- C1 witness: the two pipelines agree at a sample coordinate of a
concrete 224 × 224 image. -/
theorem c1_same_image_224_witness :
    (img224.h = 224 ∧ img224.w = 224 ∧ enc224.img = img224)
    ∧ exceptPx (preprocess_image_bytes enc224) [0, 7, 9, 2]
        = some ((preprocess_image img224).px [0, 7, 9, 2]) :=
  ⟨⟨rfl, rfl, rfl⟩, (c1_same_image_224 img224 enc224 rfl rfl (Or.inl rfl) rfl 7 9 2).2⟩

/-- C1 counterexample: on a 1 × 2 black/white image the path input
(nearest-neighbour) gives −1 at output column 111 while the bytes input
(bilinear) gives −1/112 at the same coordinate — a gap of 111/112 on
the [-1, 1] scale, far beyond floating-point tolerance or
resizing-kernel rounding. -/
theorem c1_counterexample :
    (preprocess_image stripe).px [0, 0, 111, 0] = -1
    ∧ exceptPx (preprocess_image_bytes stripeEnc) [0, 0, 111, 0] = some (-(1 : ℚ) / 112)
    ∧ (1 : ℚ) / 2 < |(-(1 : ℚ) / 112) - (-1)| := by
  refine ⟨?_, ?_, ?_⟩
  · show stripe.px 0 (nearestIdx 0 224 1) (nearestIdx 111 224 2) 0 / (255 / 2) - 1 = -1
    norm_num [nearestIdx, stripe]
  · show exceptPx (preprocess_image_bytes ⟨ImgFormat.png, stripe⟩) [0, 0, 111, 0]
      = some (-(1 : ℚ) / 112)
    rw [bytes_static_px stripe ImgFormat.png (Or.inr (Or.inl rfl)) 0 111 0]
    congr 1
    show bilinearAt (fun iy ix => stripe.px 0 iy ix 0) 1 2 224 224 0 111 / (255 / 2) - 1
      = -(1 : ℚ) / 112
    unfold bilinearAt
    rw [show srcPos 0 224 1 = -223 / 448 from by unfold srcPos; norm_num,
      show srcPos 111 224 2 = 111 / 224 from by unfold srcPos; norm_num,
      show lowIdx (-223 / 448 : ℚ) = 0 from by unfold lowIdx; norm_num,
      show highIdx (-223 / 448 : ℚ) 1 = 0 from by unfold highIdx; norm_num,
      show lowIdx (111 / 224 : ℚ) = 0 from by unfold lowIdx; norm_num,
      show highIdx (111 / 224 : ℚ) 2 = 1 from by
        unfold highIdx
        rw [show ⌈(111 / 224 : ℚ)⌉ = 1 from by rw [Int.ceil_eq_iff]; norm_num]
        rfl,
      show lerpAmt (-223 / 448 : ℚ) = 225 / 448 from by unfold lerpAmt; norm_num [Int.fract],
      show lerpAmt (111 / 224 : ℚ) = 111 / 224 from by unfold lerpAmt; norm_num [Int.fract]]
    norm_num [stripe, lerp]
  · rw [show (-(1 : ℚ) / 112) - (-1) = 111 / 112 by norm_num,
      abs_of_pos (by norm_num : (0 : ℚ) < 111 / 112)]
    norm_num

/-- C5 witness: concrete class directories `alpha` (2 jpg files) and
`beta` (5 jpg files) exercise the aggregated failure. -/
theorem c5_two_small_classes_witness :
    (countValidImages ["a1.jpg", "a2.jpg"] = 2
      ∧ countValidImages ["b1.jpg", "b2.jpg", "b3.jpg", "b4.jpg", "b5.jpg"] = 5)
    ∧ (validate_dataset "data"
        (some [⟨"alpha", true, ["a1.jpg", "a2.jpg"]⟩,
          ⟨"beta", true, ["b1.jpg", "b2.jpg", "b3.jpg", "b4.jpg", "b5.jpg"]⟩])).valid
        = false :=
  ⟨⟨by decide, by decide⟩, by
    rw [(c5_two_small_classes "data" "alpha" "beta" ["a1.jpg", "a2.jpg"]
      ["b1.jpg", "b2.jpg", "b3.jpg", "b4.jpg", "b5.jpg"]
      (by decide) (by decide) (by decide) (by decide) (by decide)).2.2]⟩

end FungiSpec
